import Mathlib

/-!
# Verification of the real-estate-analytics backend computation layer

Shallow embedding of the computational core of `src/backend/server.py`
(Baseline Comparator, Ranker, Affordability Merger, Trend Estimator, and
the zip-granularity branch of the metrics endpoint), with theorems that
settle the specification claims about it.

Numeric values are modelled as exact rationals (`ℚ`); Python's `round(x, k)`
is modelled as round-half-up at `k` decimal places (no tie case is exercised
by any concrete value in this development).
-/

namespace RealEstate

/-- Round-half-up to 2 decimal places, modelling Python `round(x, 2)`. -/
def round2 (q : ℚ) : ℚ := ((⌊q * 100 + 1/2⌋ : ℤ) : ℚ) / 100

/-- Round-half-up to 4 decimal places, modelling Python `round(x, 4)`. -/
def round4 (q : ℚ) : ℚ := ((⌊q * 10000 + 1/2⌋ : ℤ) : ℚ) / 10000

/-- A cleaned dataset row, as produced by `fetch_realtor_data`: the region
label, the integer `month_date_yyyymm` value, and the two listing counts used
by `calculate_metrics`.  Rows with missing values were dropped upstream. -/
structure Row where
  region : String
  month : Int
  active : ℚ
  pending : ℚ
deriving DecidableEq

/-- One Comparison Result dictionary emitted by `calculate_metrics`.
The fields `ratioCur` and `ratioHist` model the `currentRatio` and
`historicalRatio` keys of the Python dict. -/
structure CompResult where
  region : String
  currentActive : ℚ
  historicalActive : ℚ
  changePercentage : ℚ
  currentPending : ℚ
  historicalPending : ℚ
  pendingChange : ℚ
  ratioCur : ℚ
  ratioHist : ℚ
  ratioChange : ℚ
deriving DecidableEq

/-- `df['month_date_yyyymm'].max()` (0 on the empty frame, which
`calculate_metrics` never reaches because of its emptiness guard). -/
def latestMonthOf (df : List Row) : Int :=
  (df.map (·.month)).foldl max 0

/-- The pre-pandemic window: rows with `201601 <= month <= 201912` whose
calendar month equals that of the latest month (server.py lines 169-173). -/
def prePandemicRows (df : List Row) : List Row :=
  df.filter (fun r => decide (201601 ≤ r.month) && decide (r.month ≤ 201912) &&
    decide (r.month % 100 = latestMonthOf df % 100))

/-- Rows of the latest month (server.py line 177). -/
def currentRows (df : List Row) : List Row :=
  df.filter (fun r => decide (r.month = latestMonthOf df))

/-- The region's positive historical `active_listing_count` values within the
pre-pandemic window (lines 192-196). -/
def validActiveBaseline (df : List Row) (region : String) : List ℚ :=
  (((prePandemicRows df).filter (fun r => decide (r.region = region))).map
    (·.active)).filter (fun q => decide (0 < q))

/-- The region's positive historical `pending_listing_count` values within the
pre-pandemic window (lines 193-197). -/
def validPendingBaseline (df : List Row) (region : String) : List ℚ :=
  (((prePandemicRows df).filter (fun r => decide (r.region = region))).map
    (·.pending)).filter (fun q => decide (0 < q))

/-- Mean of the positive baseline active values (line 208). -/
def baselineActiveMean (df : List Row) (region : String) : ℚ :=
  (validActiveBaseline df region).sum / ((validActiveBaseline df region).length : ℚ)

/-- Mean of the positive baseline pending values (line 209). -/
def baselinePendingMean (df : List Row) (region : String) : ℚ :=
  (validPendingBaseline df region).sum / ((validPendingBaseline df region).length : ℚ)

/-- The baseline ratio of means, `hist_pending_mean / hist_active_mean`
(line 222). -/
def ratioBaseline (df : List Row) (region : String) : ℚ :=
  baselinePendingMean df region / baselineActiveMean df region

/-- `current_data[current_data[region_col] == region].iloc[0]` (line 184):
the first latest-month row carrying the region label, if any. -/
def currentRowOf (df : List Row) (region : String) : Option Row :=
  ((currentRows df).filter (fun r => decide (r.region = region))).head?

/-- The region's current `active_listing_count` (line 185). -/
def currentActiveOf (df : List Row) (region : String) : Option ℚ :=
  (currentRowOf df region).map (·.active)

/-- The region's current `pending_listing_count` (line 186). -/
def currentPendingOf (df : List Row) (region : String) : Option ℚ :=
  (currentRowOf df region).map (·.pending)

/-- The Comparison Result built from raw current values and baseline means
(server.py lines 221-247): ratios, the three percent changes, and rounding. -/
def mkResult (region : String) (ca cp ham hpm : ℚ) : CompResult :=
  { region := region
    currentActive := round2 ca
    historicalActive := round2 ham
    changePercentage := round2 ((ca - ham) / ham * 100)
    currentPending := round2 cp
    historicalPending := round2 hpm
    pendingChange := round2 ((cp - hpm) / hpm * 100)
    ratioCur := round4 (cp / ca)
    ratioHist := round4 (hpm / ham)
    ratioChange := round2 ((cp / ca - hpm / ham) / (hpm / ham) * 100) }

/-- The per-region body of the loop in `calculate_metrics` (lines 182-251):
`none` models `continue` (a skipped region).  The `np.isfinite` test of
line 235 is identically true over `ℚ` (all divisors are positive at that
point), so it introduces no further case. -/
def processRegion (df : List Row) (region : String) : Option CompResult :=
  match currentRowOf df region with
  | none => none
  | some cr =>
    if 3 ≤ (validActiveBaseline df region).length ∧
       3 ≤ (validPendingBaseline df region).length ∧
       0 < cr.active ∧ 0 < cr.pending then
      if cr.active < 30 ∨ cr.pending < 30 ∨
         baselineActiveMean df region < 30 ∨ baselinePendingMean df region < 30 then
        none
      else
        some (mkResult region cr.active cr.pending
          (baselineActiveMean df region) (baselinePendingMean df region))
    else none

/-- First-occurrence deduplication, modelling pandas `Series.unique()`. -/
def uniqueFirst (l : List String) : List String :=
  l.foldl (fun acc a => if a ∈ acc then acc else acc ++ [a]) []

/-- The Baseline Comparator `calculate_metrics` (server.py lines 156-260):
iterate over the distinct regions of the latest month, emitting a Comparison
Result for each region that passes all data-sufficiency thresholds. -/
def calculate_metrics (df : List Row) : List CompResult :=
  if df.isEmpty then []
  else (uniqueFirst ((currentRows df).map (·.region))).filterMap (processRegion df)

/-- One entry of a Ranker output list (server.py lines 268-295): region,
current value, pre-pandemic value, and the selected percent change under the
uniform key `changePercentage`. -/
structure RankEntry where
  region : String
  current : ℚ
  prePandemic : ℚ
  changePercentage : ℚ
deriving DecidableEq

/-- The sort key used by `get_top_bottom` for a metric selector: the
`metric == 'active'` / `'pending'` branches, with everything else treated as
`ratio` (the `else` branch at line 286). -/
def keyOf (metric : String) (r : CompResult) : ℚ :=
  if metric == "active" then r.changePercentage
  else if metric == "pending" then r.pendingChange
  else r.ratioChange

/-- The output entry built from a Comparison Result for a metric selector. -/
def entryOf (metric : String) (r : CompResult) : RankEntry :=
  if metric == "active" then
    ⟨r.region, r.currentActive, r.historicalActive, r.changePercentage⟩
  else if metric == "pending" then
    ⟨r.region, r.currentPending, r.historicalPending, r.pendingChange⟩
  else
    ⟨r.region, r.ratioCur, r.ratioHist, r.ratioChange⟩

/-- `sorted(data, key=..., reverse=True)`: stable descending sort by the
metric's percent-change field. -/
def sortDescBy (metric : String) (data : List CompResult) : List CompResult :=
  data.mergeSort (fun a b => decide (keyOf metric b ≤ keyOf metric a))

/-- The Ranker `get_top_bottom` (server.py lines 262-300): descending sort,
then `sorted_data[:n]` as top and `sorted_data[-n:]` as bottom (Python's
`[-0:]` is the whole list, hence the `n = 0` case).  Call sites use the
default `n = 10`. -/
def get_top_bottom (data : List CompResult) (metric : String) (n : Nat) :
    List RankEntry × List RankEntry :=
  (((sortDescBy metric data).take n).map (entryOf metric),
   ((if n = 0 then sortDescBy metric data
     else (sortDescBy metric data).drop ((sortDescBy metric data).length - n)).map
       (entryOf metric)))

/-- One row of a wide-format Zillow affordability dataset: the region name
and the association of date-column name to value, where `none` models a NaN
cell. -/
structure ARow where
  region : String
  vals : List (String × Option ℚ)
deriving DecidableEq

/-- A wide-format affordability dataset: its date-like column names (those
matching the `YYYY-MM-DD` pattern) and its rows. -/
structure ADataset where
  dateCols : List String
  rows : List ARow
deriving DecidableEq

/-- One merged affordability result (server.py lines 626-631). -/
structure AResult where
  region : String
  homeownerAffordability : Option ℚ
  renterAffordability : ℚ
  affordabilityGap : Option ℚ
deriving DecidableEq

/-- `sorted(date_columns)[-1]` over the homeowner dataset's date columns
(server.py line 573): the lexicographically greatest date column, `none`
when there is no date column (in Python an IndexError caught by the outer
handler, which returns `[]`). -/
def latestDateCol (d : ADataset) : Option String :=
  d.dateCols.foldl (fun acc c =>
    match acc with
    | none => some c
    | some m => if m ≤ c then some c else some m) none

/-- The renter-side lookup of `calculate_affordability_metrics` (lines
588-607): first renter row with the region's name, its value at the latest
date column; `none` models every `continue` cause (no matching row, missing
column, NaN, or zero). -/
def renterValAt (re : ADataset) (latest region : String) : Option ℚ :=
  match (re.rows.filter (fun r => decide (r.region = region))).head? with
  | none => none
  | some rrow =>
    match rrow.vals.lookup latest with
    | some (some v) => if v = 0 then none else some v
    | _ => none

/-- The homeowner-side lookup (lines 609-618): `none` models
`homeowner_value = None` (missing column, NaN, or zero). -/
def homeownerValAt (hrow : ARow) (latest : String) : Option ℚ :=
  match hrow.vals.lookup latest with
  | some (some v) => if v = 0 then none else some v
  | _ => none

/-- The per-homeowner-row body of the merge loop (lines 582-641): `none`
models `continue` (no valid renter value), otherwise a result whose gap is
present exactly when the homeowner value is. -/
def processARow (re : ADataset) (latest : String) (hrow : ARow) : Option AResult :=
  match renterValAt re latest hrow.region with
  | none => none
  | some rv =>
    let hv := homeownerValAt hrow latest
    some { region := hrow.region
           homeownerAffordability := hv
           renterAffordability := rv
           affordabilityGap := hv.map (fun v => v - rv) }

/-- Descending comparison on the affordability gap, as used on the
gap-bearing sublist (where every gap is `some`). -/
def gapGE (a b : AResult) : Bool :=
  decide (b.affordabilityGap.getD 0 ≤ a.affordabilityGap.getD 0)

/-- The merge loop's output list, before sorting (server.py lines 576-641). -/
def mergedResults (ho re : ADataset) (latest : String) : List AResult :=
  ho.rows.filterMap (processARow re latest)

/-- The Affordability Merger `calculate_affordability_metrics` (server.py
lines 563-669): merge homeowner and renter rows at the latest homeowner date
column, then sort the gap-bearing results descending by gap and append the
gapless ones. -/
def calculate_affordability_metrics (ho re : ADataset) : List AResult :=
  if ho.rows.isEmpty || re.rows.isEmpty then []
  else
    match latestDateCol ho with
    | none => []
    | some latest =>
      ((mergedResults ho re latest).filter (fun r => r.affordabilityGap.isSome)).mergeSort
          gapGE ++
        (mergedResults ho re latest).filter (fun r => r.affordabilityGap.isNone)

/-- The gap-bearing results of the summary endpoint,
`valid_results` at server.py line 721. -/
def validSummary (ho re : ADataset) : List AResult :=
  (calculate_affordability_metrics ho re).filter (fun r => r.affordabilityGap.isSome)

/-- The gapless results of the summary endpoint,
`invalid_results` at server.py line 722. -/
def gaplessSummary (ho re : ADataset) : List AResult :=
  (calculate_affordability_metrics ho re).filter (fun r => r.affordabilityGap.isNone)

/-- The `/api/affordability-summary` response shaping (server.py lines
699-733): `leastAffordable = sorted_results[:10]` over valid-then-invalid,
`mostAffordable = sorted_valid_results[-10:][::-1]` over valid only. -/
def affordabilitySummary (ho re : ADataset) : List AResult × List AResult :=
  if ho.rows.isEmpty || re.rows.isEmpty then ([], [])
  else if (calculate_affordability_metrics ho re).isEmpty then ([], [])
  else
    ((((validSummary ho re).mergeSort gapGE) ++ gaplessSummary ho re).take 10,
     (((validSummary ho re).mergeSort gapGE).drop
        (((validSummary ho re).mergeSort gapGE).length - 10)).reverse)

/-- `[(i, x) for i, x in enumerate(data) if x is not None and not isnan(x)]`
(server.py line 677); NaN does not exist over `ℚ`, so validity is presence. -/
def validPairs (data : List (Option ℚ)) : List (Nat × ℚ) :=
  data.enum.filterMap (fun p => p.2.map (fun v => (p.1, v)))

/-- Exact degree-1 least squares, modelling `np.polyfit(x, y, 1)`:
`none` when the normal-equation denominator vanishes (a degenerate fit, in
Python an exception caught at line 696). -/
def polyfit (pts : List (Nat × ℚ)) : Option (ℚ × ℚ) :=
  let n : ℚ := (pts.length : ℚ)
  let sx : ℚ := (pts.map (fun p => (p.1 : ℚ))).sum
  let sy : ℚ := (pts.map (fun p => p.2)).sum
  let sxx : ℚ := (pts.map (fun p => (p.1 : ℚ) * (p.1 : ℚ))).sum
  let sxy : ℚ := (pts.map (fun p => (p.1 : ℚ) * p.2)).sum
  let d := n * sxx - sx * sx
  if d = 0 then none
  else
    let slope := (n * sxy - sx * sy) / d
    some (slope, (sy - slope * sx) / n)

/-- The last six valid (index, value) pairs, `valid_data[-6:]` (line 682). -/
def usedPairs (data : List (Option ℚ)) : List (Nat × ℚ) :=
  (validPairs data).drop ((validPairs data).length - 6)

/-- `valid_indices[0]`: first index used by the fit (line 693). -/
def firstUsedIdx (data : List (Option ℚ)) : Nat :=
  ((usedPairs data).headD (0, 0)).1

/-- The Trend Estimator `calculate_regression_trend` (server.py lines
671-697): all-`None` when fewer than 3 valid points (or on fit failure),
otherwise the fitted value `slope * i + intercept` at every position from
the first used index onward and `None` before it. -/
def calculate_regression_trend (data : List (Option ℚ)) : List (Option ℚ) :=
  if data.length < 3 then List.replicate data.length none
  else
    if (validPairs data).length < 3 then List.replicate data.length none
    else
      match polyfit (usedPairs data) with
      | none => List.replicate data.length none
      | some (slope, intercept) =>
        (List.range data.length).map (fun i =>
          if firstUsedIdx data ≤ i then some (slope * (i : ℚ) + intercept) else none)

/-- A dynamically-typed Python value, as relevant to the pandas equality
filter of the zip branch: a string or an integer. -/
inductive PyVal where
  | str : String → PyVal
  | int : Int → PyVal
deriving DecidableEq

/-- Python `==` between such values: cross-type comparison is `False`. -/
def pyEq : PyVal → PyVal → Bool
  | .str a, .str b => a == b
  | .int a, .int b => a == b
  | _, _ => false

/-- A cleaned zip-granularity row: `fetch_realtor_data` forces
`postal_code` to string type (server.py lines 114 and 134-135). -/
structure ZipRow where
  postal_code : String
  month : Int
  active : ℚ
  pending : ℚ
deriving DecidableEq

/-- `df[df['postal_code'] == int(region)]` (server.py line 409): each
string-typed cell is compared with the integer via Python equality. -/
def zipFilter (df : List ZipRow) (r : Int) : List ZipRow :=
  df.filter (fun row => pyEq (PyVal.str row.postal_code) (PyVal.int r))

/-- The zip-granularity prefix of the `get_metrics` handler (server.py lines
401-415 with the exception handler of lines 509-511): `none` models the
handler returning `{}` (empty fetch, `int(region)` raising `ValueError`
-- caught at line 509 --, or an empty post-filter frame); `some rows` would
model proceeding to the 12-month metrics computation on `rows`, which the
theorems below show is unreachable. -/
def get_metrics_zip (df : List ZipRow) (region : String) : Option (List ZipRow) :=
  if df.isEmpty then none
  else
    match region.toInt? with
    | none => none
    | some r =>
      if (zipFilter df r).isEmpty then none else some (zipFilter df r)

/-! ## Concrete datasets used as witnesses and counterexamples -/

/-- A synthetic metro dataset whose single region passes every threshold:
current active 100, pending 80; four baseline rows for the same calendar
month of 2016-2019 with mean active 80 and mean pending 40. -/
def dfClaim1 : List Row :=
  [⟨"R", 202406, 100, 80⟩,
   ⟨"R", 201606, 80, 40⟩, ⟨"R", 201706, 80, 40⟩,
   ⟨"R", 201806, 80, 40⟩, ⟨"R", 201906, 80, 40⟩]

/-- The scenario of the spec's end-to-end example: latest-month row with
active 50 and pending 40, and baseline rows for the same calendar month of
2016-2019 averaging active 40 and pending 20. -/
def dfClaim2 : List Row :=
  [⟨"R", 202406, 50, 40⟩,
   ⟨"R", 201606, 40, 20⟩, ⟨"R", 201706, 40, 20⟩,
   ⟨"R", 201806, 40, 20⟩, ⟨"R", 201906, 40, 20⟩]

/-- The same scenario as `dfClaim2`, as a separate constant for the claim-3
counterexample. -/
def dfClaim3 : List Row :=
  [⟨"R", 202406, 50, 40⟩,
   ⟨"R", 201606, 40, 20⟩, ⟨"R", 201706, 40, 20⟩,
   ⟨"R", 201806, 40, 20⟩, ⟨"R", 201906, 40, 20⟩]

/-- The claim-3 scenario with every input count doubled, so that all
minimum-sample-size floors are met while every derived output value of the
example is unchanged. -/
def dfClaim3x : List Row :=
  [⟨"R", 202406, 100, 80⟩,
   ⟨"R", 201606, 80, 40⟩, ⟨"R", 201706, 80, 40⟩,
   ⟨"R", 201806, 80, 40⟩, ⟨"R", 201906, 80, 40⟩]

/-- The Comparison Result that `calculate_metrics` emits on `dfClaim1`. -/
def resClaim1 : CompResult :=
  ⟨"R", 100, 80, 25, 80, 40, 100, 4/5, 1/2, 60⟩

/-! ## Helper lemmas about the Baseline Comparator -/

/-- Anatomy of a successful `processRegion`: the thresholds that must have
passed and the shape of the emitted result. -/
lemma processRegion_eq_some {df : List Row} {region : String} {res : CompResult}
    (h : processRegion df region = some res) :
    ∃ cr, currentRowOf df region = some cr ∧
      3 ≤ (validActiveBaseline df region).length ∧
      3 ≤ (validPendingBaseline df region).length ∧
      0 < cr.active ∧ 0 < cr.pending ∧
      30 ≤ cr.active ∧ 30 ≤ cr.pending ∧
      30 ≤ baselineActiveMean df region ∧ 30 ≤ baselinePendingMean df region ∧
      res = mkResult region cr.active cr.pending
        (baselineActiveMean df region) (baselinePendingMean df region) := by
  unfold processRegion at h
  cases hcr : currentRowOf df region with
  | none => rw [hcr] at h; exact absurd h (by simp)
  | some cr =>
    rw [hcr] at h
    dsimp only at h
    by_cases h1 : 3 ≤ (validActiveBaseline df region).length ∧
        3 ≤ (validPendingBaseline df region).length ∧
        0 < cr.active ∧ 0 < cr.pending
    · rw [if_pos h1] at h
      by_cases h2 : cr.active < 30 ∨ cr.pending < 30 ∨
          baselineActiveMean df region < 30 ∨ baselinePendingMean df region < 30
      · rw [if_pos h2] at h; exact absurd h (by simp)
      · rw [if_neg h2] at h
        push_neg at h2
        exact ⟨cr, rfl, h1.1, h1.2.1, h1.2.2.1, h1.2.2.2,
          h2.1, h2.2.1, h2.2.2.1, h2.2.2.2, (Option.some.inj h).symm⟩
    · rw [if_neg h1] at h; exact absurd h (by simp)

/-- Every emitted Comparison Result comes from `processRegion`. -/
lemma mem_calculate_metrics {df : List Row} {res : CompResult}
    (h : res ∈ calculate_metrics df) :
    ∃ region, processRegion df region = some res := by
  unfold calculate_metrics at h
  by_cases hd : df.isEmpty
  · rw [if_pos hd] at h; exact absurd h (List.not_mem_nil res)
  · rw [if_neg hd] at h
    obtain ⟨region, -, hp⟩ := List.mem_filterMap.mp h
    exact ⟨region, hp⟩

/-- The region label of a result built by `mkResult`. -/
lemma mkResult_region (region : String) (ca cp ham hpm : ℚ) :
    (mkResult region ca cp ham hpm).region = region := rfl

/-! ## Claim theorems -/

/-- C1: for every Comparison Result emitted by the Baseline Comparator, each
of the three percent-change fields (active, pending, ratio) equals
`round((current - historical) / historical * 100, 2)`, where `historical` is
the baseline mean of the region's positive baseline-window values (for
active and pending) or the baseline ratio of means (for ratio). -/
theorem claim1_percent_change_formula (df : List Row) (res : CompResult)
    (h : res ∈ calculate_metrics df) :
    ∃ ca cp,
      currentActiveOf df res.region = some ca ∧
      currentPendingOf df res.region = some cp ∧
      res.changePercentage =
        round2 ((ca - baselineActiveMean df res.region) /
          baselineActiveMean df res.region * 100) ∧
      res.pendingChange =
        round2 ((cp - baselinePendingMean df res.region) /
          baselinePendingMean df res.region * 100) ∧
      res.ratioChange =
        round2 ((cp / ca - ratioBaseline df res.region) /
          ratioBaseline df res.region * 100) := by
  obtain ⟨region, hp⟩ := mem_calculate_metrics h
  obtain ⟨cr, hcr, -, -, -, -, -, -, -, -, hres⟩ := processRegion_eq_some hp
  have hreg : res.region = region := by rw [hres]; rfl
  refine ⟨cr.active, cr.pending, ?_, ?_, ?_, ?_, ?_⟩
  · rw [hreg]; simp [currentActiveOf, hcr]
  · rw [hreg]; simp [currentPendingOf, hcr]
  · rw [hreg, hres]; rfl
  · rw [hreg, hres]; rfl
  · rw [hreg, hres]; rfl

/-- C1 witness: on `dfClaim1` the emitted result `resClaim1` satisfies the
percent-change formulas. -/
theorem claim1_witness :
    ∃ ca cp,
      currentActiveOf dfClaim1 resClaim1.region = some ca ∧
      currentPendingOf dfClaim1 resClaim1.region = some cp ∧
      resClaim1.changePercentage =
        round2 ((ca - baselineActiveMean dfClaim1 resClaim1.region) /
          baselineActiveMean dfClaim1 resClaim1.region * 100) ∧
      resClaim1.pendingChange =
        round2 ((cp - baselinePendingMean dfClaim1 resClaim1.region) /
          baselinePendingMean dfClaim1 resClaim1.region * 100) ∧
      resClaim1.ratioChange =
        round2 ((cp / ca - ratioBaseline dfClaim1 resClaim1.region) /
          ratioBaseline dfClaim1 resClaim1.region * 100) :=
  claim1_percent_change_formula dfClaim1 resClaim1 (by with_unfolding_all decide)

/-- C2: the Baseline Comparator never emits a Comparison Result for a region
when the baseline has fewer than 3 positive historical points for either
active or pending, or when current active ≤ 0 or current pending ≤ 0, or
when any of current active, current pending, baseline active mean, baseline
pending mean is below 30.  Such regions are silently skipped: the function
returns a plain list and can signal no error. -/
theorem claim2_threshold_skip (df : List Row) (region : String)
    (h : (validActiveBaseline df region).length < 3 ∨
         (validPendingBaseline df region).length < 3 ∨
         (∃ ca, currentActiveOf df region = some ca ∧ (ca ≤ 0 ∨ ca < 30)) ∨
         (∃ cp, currentPendingOf df region = some cp ∧ (cp ≤ 0 ∨ cp < 30)) ∨
         baselineActiveMean df region < 30 ∨
         baselinePendingMean df region < 30) :
    ∀ res ∈ calculate_metrics df, res.region ≠ region := by
  intro res hres heq
  obtain ⟨region', hp⟩ := mem_calculate_metrics hres
  obtain ⟨cr, hcr, h3a, h3p, hca, hcp, h30a, h30p, h30am, h30pm, hmk⟩ :=
    processRegion_eq_some hp
  have hreg : region' = region := by
    rw [← heq, hmk, mkResult_region]
  subst hreg
  rcases h with h | h | h | h | h | h
  · omega
  · omega
  · obtain ⟨ca, hca', hor⟩ := h
    rw [currentActiveOf, hcr] at hca'
    have : ca = cr.active := by simpa using hca'.symm
    subst this
    rcases hor with h' | h' <;> linarith
  · obtain ⟨cp, hcp', hor⟩ := h
    rw [currentPendingOf, hcr] at hcp'
    have : cp = cr.pending := by simpa using hcp'.symm
    subst this
    rcases hor with h' | h' <;> linarith
  · linarith
  · linarith

/-- C2 witness: in `dfClaim2` the region `R` has baseline pending mean 20,
below the floor of 30, and indeed no result is emitted for it. -/
theorem claim2_witness :
    baselinePendingMean dfClaim2 "R" < 30 ∧
    ∀ res ∈ calculate_metrics dfClaim2, res.region ≠ "R" :=
  ⟨by with_unfolding_all decide,
   claim2_threshold_skip dfClaim2 "R"
     (Or.inr (Or.inr (Or.inr (Or.inr (Or.inr (by with_unfolding_all decide))))))⟩

/-- C3 counterexample: on the exact scenario of the claim (current active
50, pending 40; baseline averages active 40, pending 20), the comparator
emits nothing at all: the baseline pending mean 20 is below the
minimum-sample-size floor of 30, so the region is skipped. -/
theorem claim3_counterexample : calculate_metrics dfClaim3 = [] := by with_unfolding_all decide

/-- C3 as amended: with all input counts doubled (current active 100,
pending 80; baseline averages active 80, pending 40) every sample-size floor
is met and the comparator emits exactly the derived values of the original
example: changePercentage 25, pendingChange 100, currentRatio 0.8,
historicalRatio 0.5, ratioChange 60. -/
theorem claim3_amended_end_to_end :
    calculate_metrics dfClaim3x =
      [⟨"R", 100, 80, 25, 80, 40, 100, 4/5, 1/2, 60⟩] := by with_unfolding_all decide

/-! ## Helper lemmas about the Ranker -/

/-- The percent-change field of a Ranker entry is the sort key of its source
result. -/
lemma entryOf_changePercentage (metric : String) (r : CompResult) :
    (entryOf metric r).changePercentage = keyOf metric r := by
  unfold entryOf keyOf
  by_cases h1 : metric == "active"
  · rw [if_pos h1, if_pos h1]
  · rw [if_neg h1, if_neg h1]
    by_cases h2 : metric == "pending"
    · rw [if_pos h2, if_pos h2]
    · rw [if_neg h2, if_neg h2]

/-- The descending sort is a permutation of its input. -/
lemma sortDescBy_perm (metric : String) (data : List CompResult) :
    (sortDescBy metric data).Perm data :=
  List.mergeSort_perm data _

/-- The descending sort is sorted: keys are non-increasing along the list. -/
lemma sortDescBy_sorted (metric : String) (data : List CompResult) :
    (sortDescBy metric data).Pairwise
      (fun a b => keyOf metric b ≤ keyOf metric a) := by
  have h := @List.sorted_mergeSort CompResult
    (fun a b : CompResult => decide (keyOf metric b ≤ keyOf metric a))
    (fun a b c hab hbc => by
      simp only [decide_eq_true_eq] at *
      exact le_trans hbc hab)
    (fun a b => by
      simp only [Bool.or_eq_true, decide_eq_true_eq]
      exact le_total (keyOf metric b) (keyOf metric a))
    data
  exact h.imp (fun hab => of_decide_eq_true hab)

/-- The length of the descending sort. -/
lemma sortDescBy_length (metric : String) (data : List CompResult) :
    (sortDescBy metric data).length = data.length :=
  List.length_mergeSort data

/-! ## Ranker claim theorems -/

/-- C6: for every result list and metric selector, the Ranker sorts
descending by the corresponding percent-change field and returns the first
`n` entries as top and the last `n` entries, in the same descending order,
as bottom (call sites use the default `n = 10`); in particular on a list of
25 results with `n = 10`, top has 10 entries whose sort keys are
non-increasing and the first top entry carries the maximum percent change. -/
theorem claim6_ranker_top_bottom (data : List CompResult) (metric : String)
    (n : Nat) (hn : 0 < n) :
    (get_top_bottom data metric n).1 =
      ((sortDescBy metric data).take n).map (entryOf metric) ∧
    (get_top_bottom data metric n).2 =
      ((sortDescBy metric data).drop ((sortDescBy metric data).length - n)).map
        (entryOf metric) ∧
    (sortDescBy metric data).Perm data ∧
    (sortDescBy metric data).Pairwise
      (fun a b => keyOf metric b ≤ keyOf metric a) ∧
    ((get_top_bottom data metric n).1).Pairwise
      (fun a b => b.changePercentage ≤ a.changePercentage) ∧
    (data.length = 25 → n = 10 →
      ((get_top_bottom data metric n).1.length = 10 ∧
       ∀ r ∈ data, ∀ e, ((get_top_bottom data metric n).1).head? = some e →
         keyOf metric r ≤ e.changePercentage)) := by
  refine ⟨rfl, ?_, sortDescBy_perm metric data, sortDescBy_sorted metric data, ?_, ?_⟩
  · unfold get_top_bottom
    rw [if_neg (Nat.pos_iff_ne_zero.mp hn)]
  · have hsorted := sortDescBy_sorted metric data
    have htake := hsorted.sublist (List.take_sublist n _)
    refine List.pairwise_map.mpr (htake.imp ?_)
    intro a b hab
    rw [entryOf_changePercentage, entryOf_changePercentage]
    exact hab
  · intro h25 hn10
    constructor
    · show (((sortDescBy metric data).take n).map (entryOf metric)).length = 10
      rw [List.length_map, List.length_take, sortDescBy_length, h25, hn10]
      decide
    · intro r hr e he
      cases hs : sortDescBy metric data with
      | nil =>
        have := sortDescBy_length metric data
        rw [hs, h25] at this
        exact absurd this (by simp)
      | cons c t =>
        have hkey : keyOf metric r ≤ keyOf metric c := by
          have hrs : r ∈ sortDescBy metric data :=
            (sortDescBy_perm metric data).mem_iff.mpr hr
          rw [hs] at hrs
          rcases List.mem_cons.mp hrs with h | h
          · rw [h]
          · have hp := sortDescBy_sorted metric data
            rw [hs] at hp
            exact (List.pairwise_cons.mp hp).1 r h
        have hhead : e = entryOf metric c := by
          have : ((get_top_bottom data metric n).1).head? =
              some (entryOf metric c) := by
            show ((((sortDescBy metric data).take n).map (entryOf metric)).head?) = _
            rw [hs, hn10]
            rfl
          rw [this] at he
          exact (Option.some.inj he).symm
        rw [hhead, entryOf_changePercentage]
        exact hkey

/-- A list of 25 synthetic Comparison Results with distinct percent
changes. -/
def dataClaim6 : List CompResult :=
  (List.range 25).map (fun i =>
    ⟨"R" ++ toString i, (i : ℚ), 1, (i : ℚ), (i : ℚ), 1, (i : ℚ), (i : ℚ), 1, (i : ℚ)⟩)

/-- C6 witness: the Ranker on 25 concrete results with the `active` selector
and `n = 10`. -/
theorem claim6_witness :
    (sortDescBy "active" dataClaim6).Pairwise
      (fun a b => keyOf "active" b ≤ keyOf "active" a) ∧
    ((get_top_bottom dataClaim6 "active" 10).1).Pairwise
      (fun a b => b.changePercentage ≤ a.changePercentage) ∧
    (get_top_bottom dataClaim6 "active" 10).1.length = 10 ∧
    (∀ r ∈ dataClaim6, ∀ e, ((get_top_bottom dataClaim6 "active" 10).1).head? = some e →
      keyOf "active" r ≤ e.changePercentage) := by
  have h := claim6_ranker_top_bottom dataClaim6 "active" 10 (by decide)
  have h6 := h.2.2.2.2.2 (by with_unfolding_all decide) rfl
  exact ⟨h.2.2.2.1, h.2.2.2.2.1, h6.1, h6.2⟩

/-- C10: when the input list has at most `n` results, top and bottom both
equal the full descending-sorted list, so every region's entry appears in
both top and bottom simultaneously: the two lists are not disjoint on short
inputs. -/
theorem claim10_short_list_top_bottom (data : List CompResult) (metric : String)
    (n : Nat) (h : data.length ≤ n) :
    (get_top_bottom data metric n).1 =
      (sortDescBy metric data).map (entryOf metric) ∧
    (get_top_bottom data metric n).2 =
      (sortDescBy metric data).map (entryOf metric) ∧
    ∀ r ∈ data, entryOf metric r ∈ (get_top_bottom data metric n).1 ∧
      entryOf metric r ∈ (get_top_bottom data metric n).2 := by
  have hlen : (sortDescBy metric data).length ≤ n := by
    rw [sortDescBy_length]; exact h
  have htop : (get_top_bottom data metric n).1 =
      (sortDescBy metric data).map (entryOf metric) := by
    show ((sortDescBy metric data).take n).map (entryOf metric) = _
    rw [List.take_of_length_le hlen]
  have hbot : (get_top_bottom data metric n).2 =
      (sortDescBy metric data).map (entryOf metric) := by
    unfold get_top_bottom
    by_cases hz : n = 0
    · rw [if_pos hz]
    · rw [if_neg hz, Nat.sub_eq_zero_of_le hlen, List.drop_zero]
  refine ⟨htop, hbot, fun r hr => ?_⟩
  have hmem : entryOf metric r ∈ (sortDescBy metric data).map (entryOf metric) :=
    List.mem_map_of_mem _ ((sortDescBy_perm metric data).mem_iff.mpr hr)
  exact ⟨htop ▸ hmem, hbot ▸ hmem⟩

/-- A list of two synthetic Comparison Results, shorter than the default
`n = 10`. -/
def dataClaim10 : List CompResult :=
  [⟨"X", 50, 40, 25, 40, 20, 100, 4/5, 1/2, 60⟩,
   ⟨"Y", 60, 80, -25, 30, 60, -50, 1/2, 3/4, -1/3⟩]

/-- C10 witness: on a 2-element list with `n = 10`, top and bottom coincide
and contain every region's entry. -/
theorem claim10_witness :
    (get_top_bottom dataClaim10 "active" 10).1 =
      (sortDescBy "active" dataClaim10).map (entryOf "active") ∧
    (get_top_bottom dataClaim10 "active" 10).2 =
      (sortDescBy "active" dataClaim10).map (entryOf "active") ∧
    ∀ r ∈ dataClaim10, entryOf "active" r ∈ (get_top_bottom dataClaim10 "active" 10).1 ∧
      entryOf "active" r ∈ (get_top_bottom dataClaim10 "active" 10).2 :=
  claim10_short_list_top_bottom dataClaim10 "active" 10 (by with_unfolding_all decide)

/-! ## Helper lemmas about the Affordability Merger -/

/-- Every result of the sorted gap-bearing prefix has a gap. -/
lemma mem_sorted_valid_isSome {l : List AResult} {r : AResult}
    (h : r ∈ (l.filter (fun x => x.affordabilityGap.isSome)).mergeSort gapGE) :
    r.affordabilityGap.isSome = true :=
  (List.mem_filter.mp (List.mem_mergeSort.mp h)).2

/-- The merger's output splits as sorted-gap-bearing followed by gapless:
a gapless result never precedes a gap-bearing one. -/
lemma merger_pairwise (ho re : ADataset) :
    (calculate_affordability_metrics ho re).Pairwise
      (fun a b => a.affordabilityGap = none → b.affordabilityGap = none) := by
  unfold calculate_affordability_metrics
  by_cases h0 : ho.rows.isEmpty || re.rows.isEmpty
  · rw [if_pos h0]; exact List.Pairwise.nil
  · rw [if_neg h0]
    cases hl : latestDateCol ho with
    | none => exact List.Pairwise.nil
    | some latest =>
      refine List.pairwise_append.mpr ⟨?_, ?_, ?_⟩
      · refine List.pairwise_of_forall_mem_list ?_
        intro a ha b _ hnone
        have := mem_sorted_valid_isSome ha
        rw [hnone] at this
        exact absurd this (by simp)
      · refine List.pairwise_of_forall_mem_list ?_
        intro a _ b hb _
        have := (List.mem_filter.mp hb).2
        exact Option.isNone_iff_eq_none.mp (by simpa using this)
      · intro a ha b _ hnone
        have := mem_sorted_valid_isSome ha
        rw [hnone] at this
        exact absurd this (by simp)

/-! ## Affordability claim datasets -/

/-- Homeowner dataset for the claim-4 counterexample: region `A` has no
renter counterpart, region `B` does. -/
def hoClaim4 : ADataset :=
  ⟨["2024-01-31"],
   [⟨"A", [("2024-01-31", some 100)]⟩, ⟨"B", [("2024-01-31", some 50)]⟩]⟩

/-- Renter dataset for the claim-4 counterexample: only region `B`. -/
def reClaim4 : ADataset :=
  ⟨["2024-01-31"], [⟨"B", [("2024-01-31", some 30)]⟩]⟩

/-- Homeowner dataset for the claim-4 amended witness: region `B` has a
zero (hence invalid) homeowner value. -/
def hoClaim4w : ADataset :=
  ⟨["2024-01-31"],
   [⟨"A", [("2024-01-31", some 100)]⟩, ⟨"B", [("2024-01-31", some 0)]⟩]⟩

/-- Renter dataset for the claim-4 amended witness: both regions valid. -/
def reClaim4w : ADataset :=
  ⟨["2024-01-31"],
   [⟨"A", [("2024-01-31", some 30)]⟩, ⟨"B", [("2024-01-31", some 30)]⟩]⟩

/-- Homeowner dataset for the claim-5 counterexample: region `B`'s
homeowner value is zero, so its gap is absent. -/
def hoClaim5 : ADataset :=
  ⟨["2024-01-31"],
   [⟨"A", [("2024-01-31", some 100)]⟩, ⟨"B", [("2024-01-31", some 0)]⟩]⟩

/-- Renter dataset for the claim-5 counterexample. -/
def reClaim5 : ADataset :=
  ⟨["2024-01-31"],
   [⟨"A", [("2024-01-31", some 30)]⟩, ⟨"B", [("2024-01-31", some 30)]⟩]⟩

/-! ## Affordability claim theorems -/

/-- C4 counterexample: region `A` is present in the homeowner dataset but
has no renter row; the merger's output is exactly the single region-`B`
result, so no result at all (in particular none with `affordabilityGap =
None`) is emitted for `A` -- the code `continue`s over such regions. -/
theorem claim4_counterexample :
    ("A" ∈ hoClaim4.rows.map ARow.region) ∧
    calculate_affordability_metrics hoClaim4 reClaim4 =
      [⟨"B", some 50, 30, some 20⟩] := by with_unfolding_all decide

/-- C4 as amended: a region with a renter match and a valid renter value but
an unavailable homeowner value (missing, NaN or zero) at the latest date
yields a result with `affordabilityGap = None`, and in the merger's output a
gapless result never precedes a gap-bearing one (gapless regions sit after
all gap-bearing regions); a region with no renter match is skipped
entirely. -/
theorem claim4_amended_gapless_placement (ho re : ADataset) (hrow : ARow)
    (latest : String) (rv : ℚ)
    (hmem : hrow ∈ ho.rows)
    (hho : ho.rows.isEmpty = false) (hre : re.rows.isEmpty = false)
    (hlatest : latestDateCol ho = some latest)
    (hrv : renterValAt re latest hrow.region = some rv)
    (hhv : homeownerValAt hrow latest = none) :
    (⟨hrow.region, none, rv, none⟩ : AResult) ∈
      calculate_affordability_metrics ho re ∧
    (calculate_affordability_metrics ho re).Pairwise
      (fun a b => a.affordabilityGap = none → b.affordabilityGap = none) := by
  refine ⟨?_, merger_pairwise ho re⟩
  unfold calculate_affordability_metrics
  rw [hho, hre, hlatest]
  simp only [Bool.or_self, Bool.false_eq_true, if_false]
  have hproc : processARow re latest hrow = some ⟨hrow.region, none, rv, none⟩ := by
    unfold processARow
    rw [hrv, hhv]
    rfl
  have hmerged : (⟨hrow.region, none, rv, none⟩ : AResult) ∈
      mergedResults ho re latest :=
    List.mem_filterMap.mpr ⟨hrow, hmem, hproc⟩
  refine List.mem_append_right _ (List.mem_filter.mpr ⟨hmerged, ?_⟩)
  rfl

/-- C4 amended witness: region `B` of `hoClaim4w` has a zero homeowner value
and a valid renter value; its gapless result is emitted and placed after all
gap-bearing results. -/
theorem claim4_witness :
    (⟨"B", none, 30, none⟩ : AResult) ∈
      calculate_affordability_metrics hoClaim4w reClaim4w ∧
    (calculate_affordability_metrics hoClaim4w reClaim4w).Pairwise
      (fun a b => a.affordabilityGap = none → b.affordabilityGap = none) :=
  claim4_amended_gapless_placement hoClaim4w reClaim4w
    ⟨"B", [("2024-01-31", some 0)]⟩ "2024-01-31" 30
    (by with_unfolding_all decide) rfl rfl (by with_unfolding_all decide)
    (by with_unfolding_all decide) (by with_unfolding_all decide)

/-- C5 counterexample: with one gap-bearing region and one gapless region,
the gapless region `B` appears in the `leastAffordable` list of the
affordability summary (the list is `sorted_results[:10]` over
valid-then-invalid, so gapless entries leak in whenever fewer than 10
gap-bearing regions exist). -/
theorem claim5_counterexample :
    (⟨"B", none, 30, none⟩ : AResult) ∈ (affordabilitySummary hoClaim5 reClaim5).1 ∧
    (⟨"B", none, 30, none⟩ : AResult).affordabilityGap = none := by
  with_unfolding_all decide

/-- C5 as amended: a gapless region never appears in the `mostAffordable`
list (it is drawn from gap-bearing results only), and never appears in the
`leastAffordable` list provided at least 10 gap-bearing regions exist;
with fewer than 10 gap-bearing regions, gapless regions can leak into
`leastAffordable`. -/
theorem claim5_amended_ranked_output (ho re : ADataset) :
    (∀ r ∈ (affordabilitySummary ho re).2, r.affordabilityGap.isSome = true) ∧
    (10 ≤ (validSummary ho re).length →
      ∀ r ∈ (affordabilitySummary ho re).1, r.affordabilityGap.isSome = true) := by
  unfold affordabilitySummary
  by_cases h0 : ho.rows.isEmpty || re.rows.isEmpty
  · rw [if_pos h0]
    exact ⟨fun r hr => absurd hr (List.not_mem_nil r),
      fun _ r hr => absurd hr (List.not_mem_nil r)⟩
  · rw [if_neg h0]
    by_cases h1 : (calculate_affordability_metrics ho re).isEmpty
    · rw [if_pos h1]
      exact ⟨fun r hr => absurd hr (List.not_mem_nil r),
        fun _ r hr => absurd hr (List.not_mem_nil r)⟩
    · rw [if_neg h1]
      constructor
      · intro r hr
        exact mem_sorted_valid_isSome
          (List.mem_of_mem_drop (List.mem_reverse.mp hr))
      · intro hlen r hr
        have hslen : 10 ≤ ((validSummary ho re).mergeSort gapGE).length := by
          rw [List.length_mergeSort]; exact hlen
        rw [List.take_append_of_le_length hslen] at hr
        exact mem_sorted_valid_isSome (List.mem_of_mem_take hr)

/-- Homeowner dataset with eleven gap-bearing regions and one gapless
region, for the claim-5 witness. -/
def hoClaim5w : ADataset :=
  ⟨["2024-01-31"],
   [⟨"R0", [("2024-01-31", some 100)]⟩, ⟨"R1", [("2024-01-31", some 101)]⟩,
    ⟨"R2", [("2024-01-31", some 102)]⟩, ⟨"R3", [("2024-01-31", some 103)]⟩,
    ⟨"R4", [("2024-01-31", some 104)]⟩, ⟨"R5", [("2024-01-31", some 105)]⟩,
    ⟨"R6", [("2024-01-31", some 106)]⟩, ⟨"R7", [("2024-01-31", some 107)]⟩,
    ⟨"R8", [("2024-01-31", some 108)]⟩, ⟨"R9", [("2024-01-31", some 109)]⟩,
    ⟨"R10", [("2024-01-31", some 110)]⟩, ⟨"Z", [("2024-01-31", some 0)]⟩]⟩

/-- Renter dataset matching `hoClaim5w` with valid values everywhere. -/
def reClaim5w : ADataset :=
  ⟨["2024-01-31"],
   [⟨"R0", [("2024-01-31", some 30)]⟩, ⟨"R1", [("2024-01-31", some 31)]⟩,
    ⟨"R2", [("2024-01-31", some 32)]⟩, ⟨"R3", [("2024-01-31", some 33)]⟩,
    ⟨"R4", [("2024-01-31", some 34)]⟩, ⟨"R5", [("2024-01-31", some 35)]⟩,
    ⟨"R6", [("2024-01-31", some 36)]⟩, ⟨"R7", [("2024-01-31", some 37)]⟩,
    ⟨"R8", [("2024-01-31", some 38)]⟩, ⟨"R9", [("2024-01-31", some 39)]⟩,
    ⟨"R10", [("2024-01-31", some 40)]⟩, ⟨"Z", [("2024-01-31", some 41)]⟩]⟩

/-- C5 amended witness: on a dataset with eleven gap-bearing regions, both
summary lists contain only gap-bearing results. -/
theorem claim5_witness :
    (∀ r ∈ (affordabilitySummary hoClaim5w reClaim5w).2,
      r.affordabilityGap.isSome = true) ∧
    (∀ r ∈ (affordabilitySummary hoClaim5w reClaim5w).1,
      r.affordabilityGap.isSome = true) :=
  ⟨(claim5_amended_ranked_output hoClaim5w reClaim5w).1,
   (claim5_amended_ranked_output hoClaim5w reClaim5w).2
     (by with_unfolding_all decide)⟩

/-! ## Trend Estimator claims -/

/-- There are at most as many valid pairs as input positions. -/
lemma validPairs_length_le (data : List (Option ℚ)) :
    (validPairs data).length ≤ data.length := by
  calc (validPairs data).length ≤ data.enum.length :=
        List.length_filterMap_le _ _
    _ = data.length := List.enum_length

/-- C7: on every input sequence with fewer than 3 non-missing points, the
Trend Estimator returns an all-`None` sequence of the same length as the
input. -/
theorem claim7_trend_short_input (data : List (Option ℚ))
    (h : (validPairs data).length < 3) :
    calculate_regression_trend data = List.replicate data.length none := by
  unfold calculate_regression_trend
  by_cases h1 : data.length < 3
  · rw [if_pos h1]
  · rw [if_neg h1, if_pos h]

/-- C7 witness: an input with a single valid point yields `[None, None]`. -/
theorem claim7_witness :
    calculate_regression_trend [some 1, none] = List.replicate 2 none :=
  claim7_trend_short_input [some 1, none] (by with_unfolding_all decide)

/-- C8: the Trend Estimator on `[None, None, 1.0, 2.0, 3.0]` returns
`[None, None, 1.0, 2.0, 3.0]`: the fitted values lie exactly on the
least-squares line through (2,1), (3,2), (4,3), which has slope 1 and
intercept -1, so the fitted value at position i is i - 1.  More generally,
whenever at least 3 valid points exist and the least-squares fit succeeds
with slope `s` and intercept `b`, every output position from the first used
index onward holds the fitted value `s * i + b` and every earlier position
holds `None`. -/
theorem claim8_trend_least_squares :
    (calculate_regression_trend [none, none, some 1, some 2, some 3] =
      [none, none, some 1, some 2, some 3]) ∧
    (∀ (data : List (Option ℚ)) (s b : ℚ),
      3 ≤ (validPairs data).length →
      polyfit (usedPairs data) = some (s, b) →
      ∀ i, i < data.length →
        (calculate_regression_trend data)[i]? =
          some (if firstUsedIdx data ≤ i then some (s * (i : ℚ) + b) else none)) := by
  constructor
  · with_unfolding_all decide
  · intro data s b h3 hfit i hi
    unfold calculate_regression_trend
    have hle := validPairs_length_le data
    rw [if_neg (by omega), if_neg (by omega), hfit]
    simp [List.getElem?_range, hi]

/-- C8 witness: the general fitted-value description applied to the concrete
input at position 3, where the fit has slope 1 and intercept -1. -/
theorem claim8_witness :
    (calculate_regression_trend [none, none, some 1, some 2, some 3])[3]? =
      some (if firstUsedIdx [none, none, some 1, some 2, some 3] ≤ 3 then
        some (1 * ((3 : Nat) : ℚ) + -1) else none) :=
  claim8_trend_least_squares.2 [none, none, some 1, some 2, some 3] 1 (-1)
    (by with_unfolding_all decide) (by with_unfolding_all decide)
    3 (by with_unfolding_all decide)

/-! ## Zip-granularity metrics claim -/

/-- C9: for granularity `zip`, the metrics handler returns the empty object
for every region string whenever the fetched dataset is non-empty: the
cleaner stores `postal_code` as a string, the handler filters it against
`int(region)`, string-integer equality is always `False` in Python, so the
filtered frame is empty (and a non-numeric region raises in `int`, is caught,
and yields the empty object as well). -/
theorem claim9_zip_empty (df : List ZipRow) (region : String)
    (h : df ≠ []) :
    get_metrics_zip df region = none := by
  unfold get_metrics_zip
  by_cases hd : df.isEmpty
  · rw [if_pos hd]
  · rw [if_neg hd]
    cases region.toInt? with
    | none => rfl
    | some r =>
      have hfil : zipFilter df r = [] := by
        simp [zipFilter, pyEq]
      simp [hfil]

/-- C9 witness: a one-row zip dataset whose `postal_code` string matches the
queried region's digits still yields the empty object. -/
theorem claim9_witness :
    get_metrics_zip [⟨"12345", 202401, 100, 50⟩] "12345" = none :=
  claim9_zip_empty [⟨"12345", 202401, 100, 50⟩] "12345"
    (by with_unfolding_all decide)

end RealEstate
